import Mathlib

/-!
# Orthomosaic generation pipeline — verification development

Shallow embedding of the job-orchestration pipeline of the repository
(`main.py`, `handlers.py`, `config.py`, `settings.py`) and proofs of the
behavioural properties stated about it.

External collaborators (the Supabase relational store and object store, the
WebODM compute node, the webhook endpoint, the local file system) are modelled
as oracles: every call the code makes to them is represented by the value the
call returns (or the fact that it raised).  The pipeline driver
`processar_projeto` is embedded as a pure function from those oracle results to
the ordered list of externally visible events it performs (ledger updates,
webhook deliveries, job submission, metadata upload, scratch-directory cleanup)
together with its boolean return value.
-/

namespace OrtoPipeline

/-! ## Ledger updates — `handlers.atualizar_registro_requisicao` -/

/-- The three optional arguments of `atualizar_registro_requisicao`
(`handlers.py` line 113). -/
structure UpdateFields where
  id_wl : Option String
  status_orto : Option String
  url_ortomosaico : Option String
deriving DecidableEq

/-- The `data` dict built at `handlers.py` lines 130–136: one entry per
argument that is not `None`, in insertion order. -/
def updateData (f : UpdateFields) : List (String × String) :=
  (match f.id_wl with | some v => [("id_wl", v)] | none => []) ++
  (match f.status_orto with | some v => [("status_orto", v)] | none => []) ++
  (match f.url_ortomosaico with | some v => [("url_ortomosaico", v)] | none => [])

/-- A row of the `requisicoes` table, with the three updatable columns and the
columns written only at creation time (`handlers.py` lines 46–54). -/
structure Registro where
  id : String
  id_wl : Option String
  status_orto : Option String
  url_ortomosaico : Option String
  cliente : Option String
  fazenda : Option String
  talhao : Option String
  data_voo : Option String
deriving DecidableEq

/-- Modelled from the spec: the relational store applies an update payload to a
row by setting exactly the named columns ("Partial update applies only the
fields explicitly supplied; absent fields are left untouched").  The store
itself (Supabase/PostgREST) is an external collaborator, outside `src/`. -/
def applyData (r : Registro) (data : List (String × String)) : Registro :=
  data.foldl (fun r kv =>
    if kv.1 == "id_wl" then { r with id_wl := some kv.2 }
    else if kv.1 == "status_orto" then { r with status_orto := some kv.2 }
    else if kv.1 == "url_ortomosaico" then { r with url_ortomosaico := some kv.2 }
    else r) r

/-- `match new with some v => some v | none => old`: the value of an updatable
column after an update that supplied `new` for it. -/
def pick (new old : Option String) : Option String :=
  match new with
  | some v => some v
  | none => old

/-- Oracle for one call of `atualizar_registro_requisicao`:
whether `get_supabase_client()` raises, whether `.execute()` raises, and how
many rows the `eq("id", id_registro)` filter matches (the code never reads
this last value). -/
structure LedgerEnv where
  clientRaises : Bool
  execRaises : Bool
  matched : Nat
deriving DecidableEq

/-- `handlers.atualizar_registro_requisicao` (`handlers.py` lines 113–154).
Returns the boolean result together with the update request issued to the
store (record-id filter and payload), `none` when no request was issued.
Order mirrors the source: the client is created first, then the payload is
built, and the store is contacted only when the payload is non-empty; any
exception is caught and turned into `False`. -/
def atualizar_registro_requisicao (env : LedgerEnv) (id_registro : String)
    (f : UpdateFields) : Bool × Option (String × List (String × String)) :=
  if env.clientRaises then (false, none)
  else
    let data := updateData f
    if data.isEmpty then (false, none)
    else if env.execRaises then (false, some (id_registro, data))
    else (true, some (id_registro, data))

/-! ## Input acquisition — `handlers.baixar_imagens_projeto` -/

/-- An object descriptor returned by the storage listing. -/
structure StorageFile where
  name : String
deriving DecidableEq

/-- `SUPPORTED_IMAGE_EXTENSIONS` default used at `handlers.py` lines 182–183
(the active preset never carries a `SUPPORTED_IMAGE_EXTENSIONS` key, so the
default list applies). -/
def SUPPORTED_IMAGE_EXTENSIONS : List String :=
  [".jpg", ".jpeg", ".tif", ".tiff", ".png"]

/-- Split a character list at its last `'.'`: returns the characters before it
and the extension starting at it, or `none` when there is no dot. -/
def splitAtLastDot : List Char → Option (List Char × List Char)
  | [] => none
  | c :: rest =>
    match splitAtLastDot rest with
    | some (b, e) => some (c :: b, e)
    | none => if c = '.' then some ([], c :: rest) else none

/-- The final path component (characters after the last `'/'`). -/
def finalComponent (cs : List Char) : List Char :=
  cs.foldl (fun acc c => if c = '/' then [] else acc ++ [c]) []

/-- `os.path.splitext(p)[1]`: the extension of the final path component,
empty when the component has no dot or consists of leading dots only. -/
def splitextExt (p : String) : String :=
  match splitAtLastDot (finalComponent p.toList) with
  | some (before, ext) => if before.all (· = '.') then "" else String.mk ext
  | none => ""

/-- `str.lower()`, character by character (the extensions compared here are
ASCII). -/
def stringLower (s : String) : String :=
  String.mk (s.toList.map Char.toLower)

/-- The filter applied at `handlers.py` lines 185–186:
`os.path.splitext(file['name'])[1].lower() in supported_extensions`. -/
def fileExtSupported (name : String) : Bool :=
  SUPPORTED_IMAGE_EXTENSIONS.contains (stringLower (splitextExt name))

/-- `handlers.baixar_imagens_projeto` (`handlers.py` lines 157–217).
`listing` is what `storage.from_("uploads").list(id_projeto)` returned;
`downloadOk path` tells whether the download of `path` succeeded (a failed
download is logged and skipped, `handlers.py` lines 208–209).  Returns the
scratch directory and the number of images downloaded. -/
def baixar_imagens_projeto (id_projeto : String) (listing : List StorageFile)
    (downloadOk : String → Bool) : String × Nat :=
  let temp_dir := "temp/" ++ id_projeto
  if listing.isEmpty then (temp_dir, 0)
  else
    let valid_files := listing.filter (fun f => fileExtSupported f.name)
    let contador := (valid_files.filter
      (fun f => downloadOk (id_projeto ++ "/" ++ f.name))).length
    (temp_dir, contador)

/-! ## Mosaic publication — `handlers.enviar_ortomosaico_para_bucket` -/

/-- Oracle for one call of `enviar_ortomosaico_para_bucket`: whether the local
mosaic file exists, whether the `get_public_url(f"{id_projeto}/")` probe of the
parent folder raises (`folderCheckOk = false` means it raised), the outcome of
the `.folder` placeholder upload, the outcome of the mosaic upload, and the
public URL the store reports for the uploaded mosaic. -/
structure BucketEnv where
  fileExists : Bool
  folderCheckOk : Bool
  folderUploadOk : Bool
  uploadOk : Bool
  publicUrl : String
deriving DecidableEq

/-- `handlers.enviar_ortomosaico_para_bucket` (`handlers.py` lines 219–281).
Returns the `(url, success)` pair together with the ordered list of store
writes performed, each as `(object path, upload succeeded)`.  When the parent
folder probe raises, the code uploads a `{...}/.folder` placeholder first
(`handlers.py` lines 238–258); a failure of that placeholder upload is caught
and ignored.  A failing mosaic upload raises into the outer handler, which
returns `(None, False)`. -/
def enviar_ortomosaico_para_bucket (env : BucketEnv)
    (id_projeto _caminho_ortomosaico : String) :
    (Option String × Bool) × List (String × Bool) :=
  if env.fileExists = false then ((none, false), [])
  else
    let folderWrites :=
      if env.folderCheckOk then []
      else [(id_projeto ++ "/.folder", env.folderUploadOk)]
    if env.uploadOk then
      ((some env.publicUrl, true),
        folderWrites ++ [(id_projeto ++ "/odm_ortophoto.tif", true)])
    else
      ((none, false),
        folderWrites ++ [(id_projeto ++ "/odm_ortophoto.tif", false)])

/-! ## Completion wait — `handlers.aguardar_processamento` -/

/-- The remote job status vocabulary (pyodm `TaskStatus`). -/
inductive TaskStatus where
  | QUEUED
  | RUNNING
  | COMPLETED
  | FAILED
  | CANCELED
deriving DecidableEq, BEq

/-- `info.status.name` (`handlers.py` line 412). -/
def TaskStatus.name : TaskStatus → String
  | .QUEUED => "QUEUED"
  | .RUNNING => "RUNNING"
  | .COMPLETED => "COMPLETED"
  | .FAILED => "FAILED"
  | .CANCELED => "CANCELED"

/-- A status is terminal when the remote service will not change it again. -/
def TaskStatus.isTerminal : TaskStatus → Bool
  | .COMPLETED => true
  | .FAILED => true
  | .CANCELED => true
  | _ => false

/-- `max_timeout = 64800` (18 hours), `handlers.py` line 401. -/
def max_timeout : Nat := 64800

/-- The fixed polling interval of 30 seconds, `handlers.py` line 405. -/
def polling_interval : Nat := 30

/-- `max_retries = max_timeout // 30`, `handlers.py` line 406: the maximum
number of status checks before the wait gives up. -/
def max_polls : Nat := max_timeout / polling_interval

/-- First terminal status in the window `[k, k + fuel)` of the observed status
stream, with its poll index. -/
def firstTerminalAux (statuses : Nat → TaskStatus) :
    Nat → Nat → Option (Nat × TaskStatus)
  | 0, _ => none
  | fuel + 1, k =>
    if (statuses k).isTerminal then some (k, statuses k)
    else firstTerminalAux statuses fuel (k + 1)

/-- First terminal status observed within the poll budget. -/
def firstTerminal (statuses : Nat → TaskStatus) : Option (Nat × TaskStatus) :=
  firstTerminalAux statuses max_polls 0

/-- Number of status checks the wait performs on the given status stream:
up to and including the first terminal observation, or the whole budget when
no terminal status ever appears. -/
def pollCount (statuses : Nat → TaskStatus) : Nat :=
  match firstTerminal statuses with
  | some (k, _) => k + 1
  | none => max_polls

/-- `handlers.aguardar_processamento` (`handlers.py` lines 386–420) over the
stream of statuses the remote job reports at successive checks.

Modelled from the spec: the polling loop itself lives in the external pyodm
library (`task.wait_for_completion`), outside `src/`; it is modelled after the
spec's `awaitCompletion(handle, interval, maxWait)` contract — check at the
configured interval, stop at the first terminal status, give up with a timeout
outcome once the budget is exhausted.  The reported pair mirrors the source:
`(info.status.name, status == "COMPLETED")` on a terminal observation
(`handlers.py` lines 411–415), and the exception branch's `("FAILED", False)`
(`handlers.py` line 420) for the timeout outcome. -/
def aguardar_processamento (statuses : Nat → TaskStatus) : String × Bool :=
  match firstTerminal statuses with
  | some (_, s) => (s.name, s.name == "COMPLETED")
  | none => ("FAILED", false)

/-! ## The pipeline driver — `main.processar_projeto` -/

/-- Externally visible actions of one pipeline run, in program order:
a ledger update (the three optional fields of
`atualizar_registro_requisicao` plus its boolean result), a webhook delivery
(`enviar_webhook(id_projeto, status, url_ortomosaico=…, mensagem=…)`),
the remote job submission (`processar_imagens_webodm` and the
`node.create_task` inside it), the metadata upload, and the scratch-directory
removal (`limpar_arquivos_temporarios`). -/
inductive Event where
  | update (id_wl status_orto url_ortomosaico : Option String) (ok : Bool)
  | webhook (status : String) (url_ortomosaico mensagem : Option String)
  | submit (id_projeto : String)
  | sendMeta (ok : Bool)
  | cleanup (id_projeto : String)
deriving DecidableEq

def isCleanup : Event → Bool
  | .cleanup _ => true
  | _ => false

def isErroWebhook : Event → Bool
  | .webhook s _ _ => s == "erro"
  | _ => false

def isSubmit : Event → Bool
  | .submit _ => true
  | _ => false

/-- Python truthiness of an optional string: `None` and `""` are falsy. -/
def truthyO : Option String → Bool
  | none => false
  | some s => !(s == "")

/-- Oracle for one run of `processar_projeto`: the value each stage call
returns.  `submitRes` is the task uuid when `processar_imagens_webodm`
returned `(task, True)`, `none` when it returned `(None, False)`;
`awaitRes` is what `aguardar_processamento` returned; `dlRes`, `metaRes` and
`uploadRes` are the result path / metadata path / public URL, `none` on
failure; the `upd…Ok` fields are the (mostly ignored) boolean results of the
intermediate ledger updates, and `commitOk` the result of the terminal
success update. -/
structure RunEnv where
  numImagens : Nat
  submitRes : Option String
  updNoImagesOk : Bool
  updSubmitFailOk : Bool
  updIdWlOk : Bool
  updProcFailOk : Bool
  updDlFailOk : Bool
  updUploadFailOk : Bool
  awaitRes : String × Bool
  dlRes : Option String
  metaRes : Option String
  uploadRes : Option String
  sendMetaOk : Bool
  commitOk : Bool
deriving DecidableEq

/-- `main.processar_projeto` (`main.py` lines 95–204): the ordered list of
externally visible events of one run, and the run's boolean result.  Each
branch mirrors the corresponding block of the source, with the exact status
strings and webhook messages. -/
def processar_projeto (env : RunEnv) (id_projeto _registro_id : String) :
    List Event × Bool :=
  if env.numImagens = 0 then
    ([Event.update none (some "Erro: Nenhuma imagem encontrada") none env.updNoImagesOk,
      Event.webhook "erro" none (some "Nenhuma imagem encontrada")], false)
  else
    match env.submitRes with
    | none =>
      ([Event.submit id_projeto,
        Event.update none (some "Erro: Falha ao iniciar processamento") none env.updSubmitFailOk,
        Event.webhook "erro" none (some "Falha ao iniciar processamento no WebODM"),
        Event.cleanup id_projeto], false)
    | some uuid =>
      let pre := [Event.submit id_projeto,
        Event.update (some uuid) none none env.updIdWlOk]
      if env.awaitRes.2 = false then
        (pre ++
          [Event.update none (some ("Erro: " ++ env.awaitRes.1)) none env.updProcFailOk,
           Event.webhook "erro" none (some ("Processamento falhou: " ++ env.awaitRes.1)),
           Event.cleanup id_projeto], false)
      else if truthyO env.dlRes = false then
        (pre ++
          [Event.update none (some "Erro: Falha ao baixar resultados") none env.updDlFailOk,
           Event.webhook "erro" none (some "Falha ao baixar resultados"),
           Event.cleanup id_projeto], false)
      else if truthyO env.uploadRes = false then
        (pre ++
          [Event.update none (some "Erro: Falha ao enviar ortomosaico") none env.updUploadFailOk,
           Event.webhook "erro" none (some "Falha ao enviar ortomosaico para o bucket"),
           Event.cleanup id_projeto], false)
      else
        let url := env.uploadRes.getD ""
        let metaEvts := if truthyO env.metaRes then [Event.sendMeta env.sendMetaOk] else []
        if env.commitOk = false then
          (pre ++ metaEvts ++
            [Event.update none (some "Sucesso") (some url) false,
             Event.webhook "erro" none (some "Falha ao atualizar registro no banco de dados"),
             Event.cleanup id_projeto], false)
        else
          (pre ++ metaEvts ++
            [Event.update none (some "Sucesso") (some url) true,
             Event.webhook "sucesso" (some url) none,
             Event.cleanup id_projeto], true)

/-- The run reached step 8 with every fatal stage succeeded but the terminal
success commit failed (`main.py` lines 176–180). -/
def commitFailCond (env : RunEnv) : Bool :=
  (!(env.numImagens == 0)) && env.submitRes.isSome && env.awaitRes.2 &&
    truthyO env.dlRes && truthyO env.uploadRes && !env.commitOk

/-! ## The shared preset — `config.ortomosaico_preset` and
`handlers.processar_imagens_webodm` -/

/-- A scalar value of the processing-options mapping. -/
inductive PVal where
  | pstr (s : String)
  | pint (n : Int)
  | pbool (b : Bool)
  | pfloat (q : ℚ)
deriving DecidableEq

/-- Dictionary lookup on an insertion-ordered association list. -/
def dictGet : List (String × PVal) → String → Option PVal
  | [], _ => none
  | (k', v) :: rest, k => if k' == k then some v else dictGet rest k

/-- Dictionary assignment: overwrite in place when the key exists, append
otherwise (Python dict semantics). -/
def dictSet : List (String × PVal) → String → PVal → List (String × PVal)
  | [], k, v => [(k, v)]
  | (k', v') :: rest, k, v =>
    if k' == k then (k', v) :: rest else (k', v') :: dictSet rest k v

/-- `d.get(k, default)`. -/
def dictGetD (p : List (String × PVal)) (k : String) (d : PVal) : PVal :=
  (dictGet p k).getD d

/-- Python `float(x)` on the values that can occur here.  The only value the
source ever coerces is `opcoes.get("orthophoto-resolution", 5)`, which is the
integer default `5` (no preset carries that key), so the string branch —
where Python would parse the text — is unreachable and left as a placeholder. -/
def float_of : PVal → PVal
  | .pint n => .pfloat (n : ℚ)
  | .pfloat q => .pfloat q
  | .pbool b => .pfloat (if b then 1 else 0)
  | .pstr _ => .pfloat 0

/-- `ODM_QUALITY_PRESETS["padrao"]` (`settings.py` lines 13–33), the value of
`config.ortomosaico_preset` under the default `ACTIVE_PRESET` (`config.py`
lines 51, 110). -/
def ortomosaico_preset_padrao : List (String × PVal) :=
  [("feature-quality", .pstr "high"),
   ("min-num-features", .pint 10000),
   ("matcher-neighbors", .pint 8),
   ("matcher-distance", .pint 3),
   ("feature-type", .pstr "sift"),
   ("optimize-disk-space", .pbool true),
   ("pc-quality", .pstr "high"),
   ("pc-filter", .pfloat (5 / 2)),
   ("depthmap-resolution", .pint 640),
   ("dem-resolution", .pstr "2"),
   ("orthophoto-cutline", .pbool true),
   ("use-3dmesh", .pbool true),
   ("cog", .pbool true),
   ("auto-boundary", .pbool true),
   ("dsm", .pbool false),
   ("dtm", .pbool false),
   ("skip-3dmodel", .pbool true),
   ("skip-report", .pbool true),
   ("pc-classify", .pbool false)]

/-- The writes of `handlers.processar_imagens_webodm` into the options mapping
(`handlers.py` lines 358–369).  `opcoes = config.ortomosaico_preset` aliases
the process-wide preset, so these writes land in the shared mapping itself: in
this state-passing embedding the returned mapping IS the new value of
`config.ortomosaico_preset`, and the next run starts from it. -/
def processar_imagens_webodm_opcoes (g : List (String × PVal))
    (id_projeto : String) : List (String × PVal) :=
  let o := dictSet g "name" (.pstr ("Projeto_" ++ id_projeto))
  let o := dictSet o "orthophoto-resolution"
    (float_of (dictGetD o "orthophoto-resolution" (.pint 5)))
  let o := dictSet o "dsm" (dictGetD o "dsm" (.pbool false))
  let o := dictSet o "dtm" (dictGetD o "dtm" (.pbool false))
  let o := dictSet o "gcp" (.pbool false)
  let o := dictSet o "projection" (.pstr "EPSG:4326")
  o

/-! ## Shape of a pipeline run

`run_shape` enumerates the nine possible event traces of `processar_projeto`,
one per exit path (two of the paths split again on whether a metadata artifact
was produced).  Every trace-ordering claim below consumes this case analysis. -/

lemma run_shape (env : RunEnv) (id_projeto registro_id : String) :
    (env.numImagens = 0 ∧
      processar_projeto env id_projeto registro_id =
        ([Event.update none (some "Erro: Nenhuma imagem encontrada") none env.updNoImagesOk,
          Event.webhook "erro" none (some "Nenhuma imagem encontrada")], false)) ∨
    (env.numImagens ≠ 0 ∧ env.submitRes = none ∧
      processar_projeto env id_projeto registro_id =
        ([Event.submit id_projeto,
          Event.update none (some "Erro: Falha ao iniciar processamento") none env.updSubmitFailOk,
          Event.webhook "erro" none (some "Falha ao iniciar processamento no WebODM"),
          Event.cleanup id_projeto], false)) ∨
    (∃ uuid, env.numImagens ≠ 0 ∧ env.submitRes = some uuid ∧
      env.awaitRes.2 = false ∧
      processar_projeto env id_projeto registro_id =
        ([Event.submit id_projeto,
          Event.update (some uuid) none none env.updIdWlOk,
          Event.update none (some ("Erro: " ++ env.awaitRes.1)) none env.updProcFailOk,
          Event.webhook "erro" none (some ("Processamento falhou: " ++ env.awaitRes.1)),
          Event.cleanup id_projeto], false)) ∨
    (∃ uuid, env.numImagens ≠ 0 ∧ env.submitRes = some uuid ∧
      env.awaitRes.2 = true ∧ truthyO env.dlRes = false ∧
      processar_projeto env id_projeto registro_id =
        ([Event.submit id_projeto,
          Event.update (some uuid) none none env.updIdWlOk,
          Event.update none (some "Erro: Falha ao baixar resultados") none env.updDlFailOk,
          Event.webhook "erro" none (some "Falha ao baixar resultados"),
          Event.cleanup id_projeto], false)) ∨
    (∃ uuid, env.numImagens ≠ 0 ∧ env.submitRes = some uuid ∧
      env.awaitRes.2 = true ∧ truthyO env.dlRes = true ∧
      truthyO env.uploadRes = false ∧
      processar_projeto env id_projeto registro_id =
        ([Event.submit id_projeto,
          Event.update (some uuid) none none env.updIdWlOk,
          Event.update none (some "Erro: Falha ao enviar ortomosaico") none env.updUploadFailOk,
          Event.webhook "erro" none (some "Falha ao enviar ortomosaico para o bucket"),
          Event.cleanup id_projeto], false)) ∨
    (∃ uuid, env.numImagens ≠ 0 ∧ env.submitRes = some uuid ∧
      env.awaitRes.2 = true ∧ truthyO env.dlRes = true ∧
      truthyO env.uploadRes = true ∧ truthyO env.metaRes = false ∧
      env.commitOk = false ∧
      processar_projeto env id_projeto registro_id =
        ([Event.submit id_projeto,
          Event.update (some uuid) none none env.updIdWlOk,
          Event.update none (some "Sucesso") (some (env.uploadRes.getD "")) false,
          Event.webhook "erro" none (some "Falha ao atualizar registro no banco de dados"),
          Event.cleanup id_projeto], false)) ∨
    (∃ uuid, env.numImagens ≠ 0 ∧ env.submitRes = some uuid ∧
      env.awaitRes.2 = true ∧ truthyO env.dlRes = true ∧
      truthyO env.uploadRes = true ∧ truthyO env.metaRes = true ∧
      env.commitOk = false ∧
      processar_projeto env id_projeto registro_id =
        ([Event.submit id_projeto,
          Event.update (some uuid) none none env.updIdWlOk,
          Event.sendMeta env.sendMetaOk,
          Event.update none (some "Sucesso") (some (env.uploadRes.getD "")) false,
          Event.webhook "erro" none (some "Falha ao atualizar registro no banco de dados"),
          Event.cleanup id_projeto], false)) ∨
    (∃ uuid, env.numImagens ≠ 0 ∧ env.submitRes = some uuid ∧
      env.awaitRes.2 = true ∧ truthyO env.dlRes = true ∧
      truthyO env.uploadRes = true ∧ truthyO env.metaRes = false ∧
      env.commitOk = true ∧
      processar_projeto env id_projeto registro_id =
        ([Event.submit id_projeto,
          Event.update (some uuid) none none env.updIdWlOk,
          Event.update none (some "Sucesso") (some (env.uploadRes.getD "")) true,
          Event.webhook "sucesso" (some (env.uploadRes.getD "")) none,
          Event.cleanup id_projeto], true)) ∨
    (∃ uuid, env.numImagens ≠ 0 ∧ env.submitRes = some uuid ∧
      env.awaitRes.2 = true ∧ truthyO env.dlRes = true ∧
      truthyO env.uploadRes = true ∧ truthyO env.metaRes = true ∧
      env.commitOk = true ∧
      processar_projeto env id_projeto registro_id =
        ([Event.submit id_projeto,
          Event.update (some uuid) none none env.updIdWlOk,
          Event.sendMeta env.sendMetaOk,
          Event.update none (some "Sucesso") (some (env.uploadRes.getD "")) true,
          Event.webhook "sucesso" (some (env.uploadRes.getD "")) none,
          Event.cleanup id_projeto], true)) := by
  obtain ⟨n, sub, u1, u2, u3, u4, u5, u6, ⟨ast, aok⟩, dl, mt, up, sm, co⟩ := env
  cases n with
  | zero => exact Or.inl ⟨rfl, rfl⟩
  | succ m =>
    cases sub with
    | none =>
      refine Or.inr (Or.inl ⟨Nat.succ_ne_zero m, rfl, ?_⟩)
      simp [processar_projeto]
    | some uuid =>
      cases aok with
      | false =>
        refine Or.inr (Or.inr (Or.inl ⟨uuid, Nat.succ_ne_zero m, rfl, rfl, ?_⟩))
        simp [processar_projeto]
      | true =>
        cases hdl : truthyO dl with
        | false =>
          refine Or.inr (Or.inr (Or.inr (Or.inl
            ⟨uuid, Nat.succ_ne_zero m, rfl, rfl, rfl, ?_⟩)))
          simp [processar_projeto, hdl]
        | true =>
          cases hup : truthyO up with
          | false =>
            refine Or.inr (Or.inr (Or.inr (Or.inr (Or.inl
              ⟨uuid, Nat.succ_ne_zero m, rfl, rfl, rfl, rfl, ?_⟩))))
            simp [processar_projeto, hdl, hup]
          | true =>
            cases hmt : truthyO mt with
            | false =>
              cases co with
              | false =>
                refine Or.inr (Or.inr (Or.inr (Or.inr (Or.inr (Or.inl
                  ⟨uuid, Nat.succ_ne_zero m, rfl, rfl, rfl, rfl, rfl, rfl, ?_⟩)))))
                simp [processar_projeto, hdl, hup, hmt]
              | true =>
                refine Or.inr (Or.inr (Or.inr (Or.inr (Or.inr (Or.inr (Or.inr (Or.inl
                  ⟨uuid, Nat.succ_ne_zero m, rfl, rfl, rfl, rfl, rfl, rfl, ?_⟩)))))))
                simp [processar_projeto, hdl, hup, hmt]
            | true =>
              cases co with
              | false =>
                refine Or.inr (Or.inr (Or.inr (Or.inr (Or.inr (Or.inr (Or.inl
                  ⟨uuid, Nat.succ_ne_zero m, rfl, rfl, rfl, rfl, rfl, rfl, ?_⟩))))))
                simp [processar_projeto, hdl, hup, hmt]
              | true =>
                refine Or.inr (Or.inr (Or.inr (Or.inr (Or.inr (Or.inr (Or.inr (Or.inr
                  ⟨uuid, Nat.succ_ne_zero m, rfl, rfl, rfl, rfl, rfl, rfl, ?_⟩)))))))
                simp [processar_projeto, hdl, hup, hmt]

/-! ## Claim C2 — cleanup is skipped on the zero-images abort -/

/-- Counterexample to C2 as stated: on the zero-images abort the run performs
no cleanup event at all (the claim demands exactly one on every exit path,
including this one). -/
theorem claim2_counterexample :
    (processar_projeto
      ⟨0, none, true, true, true, true, true, true, ("", false),
        none, none, none, true, true⟩ "p" "r").1.countP isCleanup = 0 ∧
    (processar_projeto
      ⟨0, none, true, true, true, true, true, true, ("", false),
        none, none, none, true, true⟩ "p" "r").2 = false := by
  decide

/-- Claim C2 as amended: the local working set is removed exactly once on
every exit path except the zero-images abort, where it is not removed at all;
whenever the cleanup happens it is the final event of the run, after every
use of the working set's contents. -/
theorem claim2_cleanup_once_except_no_images
    (env : RunEnv) (id_projeto registro_id : String) :
    ((processar_projeto env id_projeto registro_id).1.countP isCleanup =
      if env.numImagens = 0 then 0 else 1) ∧
    (env.numImagens ≠ 0 →
      (processar_projeto env id_projeto registro_id).1.getLast? =
        some (Event.cleanup id_projeto)) := by
  rcases run_shape env id_projeto registro_id with
    ⟨h0, heq⟩ | ⟨h0, _, heq⟩ | ⟨uuid, h0, _, _, heq⟩ | ⟨uuid, h0, _, _, _, heq⟩ |
    ⟨uuid, h0, _, _, _, _, heq⟩ | ⟨uuid, h0, _, _, _, _, _, _, heq⟩ |
    ⟨uuid, h0, _, _, _, _, _, _, heq⟩ | ⟨uuid, h0, _, _, _, _, _, _, heq⟩ |
    ⟨uuid, h0, _, _, _, _, _, _, heq⟩
  · exact ⟨by rw [heq, if_pos h0]; rfl, fun hn => absurd h0 hn⟩
  all_goals exact ⟨by rw [heq, if_neg h0]; rfl, fun _ => by rw [heq]; rfl⟩

/-- Witness for the amended C2: a run that aborts at submission performs its
single cleanup as the final event. -/
theorem claim2_witness :
    (processar_projeto
      ⟨2, none, true, true, true, true, true, true, ("", false),
        none, none, none, true, true⟩ "p" "r").1.countP isCleanup = 1 ∧
    (processar_projeto
      ⟨2, none, true, true, true, true, true, true, ("", false),
        none, none, none, true, true⟩ "p" "r").1.getLast? =
      some (Event.cleanup "p") := by
  have h := claim2_cleanup_once_except_no_images
    ⟨2, none, true, true, true, true, true, true, ("", false),
      none, none, none, true, true⟩ "p" "r"
  exact ⟨by simpa using h.1, h.2 (by decide)⟩

/-! ## Claim C1 — the success webhook follows the successful commit -/

/-- Claim C1: the success webhook is delivered if and only if the terminal
ledger update that set the `"Sucesso"` status and the mosaic reference
returned success, and it is delivered strictly after that commit (the trace
ends with the successful commit, then the success webhook, then cleanup) —
never before it and never on any abort path. -/
theorem claim1_success_webhook_iff_commit
    (env : RunEnv) (id_projeto registro_id : String) :
    (∃ u, Event.webhook "sucesso" (some u) none ∈
        (processar_projeto env id_projeto registro_id).1) ↔
    (∃ pre u, (processar_projeto env id_projeto registro_id).1 =
        pre ++ [Event.update none (some "Sucesso") (some u) true,
                Event.webhook "sucesso" (some u) none,
                Event.cleanup id_projeto]) := by
  constructor
  · intro hmem
    rcases run_shape env id_projeto registro_id with
      ⟨_, heq⟩ | ⟨_, _, heq⟩ | ⟨uuid, _, _, _, heq⟩ | ⟨uuid, _, _, _, _, heq⟩ |
      ⟨uuid, _, _, _, _, _, heq⟩ | ⟨uuid, _, _, _, _, _, _, _, heq⟩ |
      ⟨uuid, _, _, _, _, _, _, _, heq⟩ | ⟨uuid, _, _, _, _, _, _, _, heq⟩ |
      ⟨uuid, _, _, _, _, _, _, _, heq⟩
    · obtain ⟨u, hu⟩ := hmem; rw [heq] at hu; simp at hu
    · obtain ⟨u, hu⟩ := hmem; rw [heq] at hu; simp at hu
    · obtain ⟨u, hu⟩ := hmem; rw [heq] at hu; simp at hu
    · obtain ⟨u, hu⟩ := hmem; rw [heq] at hu; simp at hu
    · obtain ⟨u, hu⟩ := hmem; rw [heq] at hu; simp at hu
    · obtain ⟨u, hu⟩ := hmem; rw [heq] at hu; simp at hu
    · obtain ⟨u, hu⟩ := hmem; rw [heq] at hu; simp at hu
    · exact ⟨[Event.submit id_projeto,
        Event.update (some uuid) none none env.updIdWlOk],
        env.uploadRes.getD "", by rw [heq]; rfl⟩
    · exact ⟨[Event.submit id_projeto,
        Event.update (some uuid) none none env.updIdWlOk,
        Event.sendMeta env.sendMetaOk],
        env.uploadRes.getD "", by rw [heq]; rfl⟩
  · rintro ⟨pre, u, hEq⟩
    exact ⟨u, by rw [hEq]; simp⟩

/-- Witness for C1: a fully successful run's trace ends with the successful
commit followed by the success webhook and the cleanup. -/
theorem claim1_witness :
    ∃ pre u,
      (processar_projeto
        ⟨1, some "U", true, true, true, true, true, true, ("COMPLETED", true),
          some "o.tif", none, some "http://u", true, true⟩ "p" "r").1 =
        pre ++ [Event.update none (some "Sucesso") (some u) true,
                Event.webhook "sucesso" (some u) none,
                Event.cleanup "p"] :=
  (claim1_success_webhook_iff_commit
    ⟨1, some "U", true, true, true, true, true, true, ("COMPLETED", true),
      some "o.tif", none, some "http://u", true, true⟩ "p" "r").1
    ⟨"http://u", by decide⟩

/-! ## Claim C6 — exactly three stage failures are non-fatal -/

/-- Claim C6: the run succeeds (publishes the mosaic, commits terminal
success, sends the success webhook) exactly when every fatal stage succeeds —
images found, submission succeeded, processing completed, results downloaded,
mosaic uploaded, terminal commit succeeded.  The right-hand side mentions
neither the metadata-rendering result (`metaRes`), nor the metadata-upload
result (`sendMetaOk`), nor the result of persisting the intermediate job
reference (`updIdWlOk`): those three failures — alone or together — are
non-fatal, and every other stage failure aborts the run. -/
theorem claim6_fatal_and_nonfatal_stages
    (env : RunEnv) (id_projeto registro_id : String) :
    ((processar_projeto env id_projeto registro_id).2 = true ↔
      (env.numImagens ≠ 0 ∧ env.submitRes ≠ none ∧ env.awaitRes.2 = true ∧
       truthyO env.dlRes = true ∧ truthyO env.uploadRes = true ∧
       env.commitOk = true)) ∧
    ((processar_projeto env id_projeto registro_id).2 = true →
      ∃ u, Event.webhook "sucesso" (some u) none ∈
        (processar_projeto env id_projeto registro_id).1) := by
  rcases run_shape env id_projeto registro_id with
    ⟨h0, heq⟩ | ⟨h0, hs, heq⟩ | ⟨uuid, h0, hs, ha, heq⟩ |
    ⟨uuid, h0, hs, ha, hdl, heq⟩ | ⟨uuid, h0, hs, ha, hdl, hup, heq⟩ |
    ⟨uuid, h0, hs, ha, hdl, hup, hmt, hco, heq⟩ |
    ⟨uuid, h0, hs, ha, hdl, hup, hmt, hco, heq⟩ |
    ⟨uuid, h0, hs, ha, hdl, hup, hmt, hco, heq⟩ |
    ⟨uuid, h0, hs, ha, hdl, hup, hmt, hco, heq⟩
  · exact ⟨by rw [heq]; simp [h0], by rw [heq]; simp⟩
  · exact ⟨by rw [heq]; simp [hs], by rw [heq]; simp⟩
  · exact ⟨by rw [heq]; simp [ha], by rw [heq]; simp⟩
  · exact ⟨by rw [heq]; simp [hdl], by rw [heq]; simp⟩
  · exact ⟨by rw [heq]; simp [hup], by rw [heq]; simp⟩
  · exact ⟨by rw [heq]; simp [hco], by rw [heq]; simp⟩
  · exact ⟨by rw [heq]; simp [hco], by rw [heq]; simp⟩
  · exact ⟨by rw [heq]; simp [h0, hs, ha, hdl, hup, hco],
      fun _ => ⟨env.uploadRes.getD "", by rw [heq]; simp⟩⟩
  · exact ⟨by rw [heq]; simp [h0, hs, ha, hdl, hup, hco],
      fun _ => ⟨env.uploadRes.getD "", by rw [heq]; simp⟩⟩

/-- Witness for C6: a run in which metadata rendering failed, the metadata
upload would fail, and the intermediate job-reference persist failed, yet
every fatal stage succeeded, still returns success. -/
theorem claim6_witness :
    (processar_projeto
      ⟨3, some "U", true, true, false, true, true, true, ("COMPLETED", true),
        some "o.tif", none, some "http://u", false, true⟩ "p" "r").2 = true :=
  (claim6_fatal_and_nonfatal_stages
    ⟨3, some "U", true, true, false, true, true, true, ("COMPLETED", true),
      some "o.tif", none, some "http://u", false, true⟩ "p" "r").1.mpr
    ⟨by decide, by decide, rfl, rfl, rfl, rfl⟩

/-! ## Claim C3 — the commit-failed abort lacks a ledger error update -/

def isNonSuccessStatusUpdate : Event → Bool
  | .update _ (some s) _ _ => !(s == "Sucesso")
  | _ => false

/-- Counterexample to C3 as stated: on the commit-failed abort (every fatal
stage succeeded but the terminal `"Sucesso"` update returned failure) an error
webhook is delivered although no ledger update of the run carries any status
other than `"Sucesso"` — in particular no error-describing status is ever
written, so an error webhook without an accompanying ledger error update does
occur. -/
theorem claim3_counterexample :
    (processar_projeto
      ⟨1, some "U", true, true, true, true, true, true, ("COMPLETED", true),
        some "o.tif", none, some "http://u", true, false⟩ "p" "r").1.countP
      isErroWebhook = 1 ∧
    (processar_projeto
      ⟨1, some "U", true, true, true, true, true, true, ("COMPLETED", true),
        some "o.tif", none, some "http://u", true, false⟩ "p" "r").1.countP
      isNonSuccessStatusUpdate = 0 := by
  decide

/-- Claim C3 as amended: on every abort exit the single error webhook of the
run is immediately preceded by a ledger update; on every abort except the
commit-failed one that update carries an error-describing `"Erro: …"` status
derived from the failure cause, while on the commit-failed abort the
immediately preceding update is the failed `"Sucesso"` commit and no ledger
update of the run carries an error-describing status at all. -/
theorem claim3_error_update_precedes_error_webhook
    (env : RunEnv) (id_projeto registro_id : String)
    (h : (processar_projeto env id_projeto registro_id).2 = false) :
    (∃ pre idw st url b msg suf,
      (processar_projeto env id_projeto registro_id).1 =
        pre ++ Event.update idw st url b ::
          Event.webhook "erro" none (some msg) :: suf ∧
      ((∃ t, st = some ("Erro: " ++ t)) ∨ (st = some "Sucesso" ∧ b = false))) ∧
    (processar_projeto env id_projeto registro_id).1.countP isErroWebhook = 1 ∧
    (commitFailCond env = false →
      ∃ pre t b msg suf,
        (processar_projeto env id_projeto registro_id).1 =
          pre ++ Event.update none (some ("Erro: " ++ t)) none b ::
            Event.webhook "erro" none (some msg) :: suf) ∧
    (commitFailCond env = true →
      (processar_projeto env id_projeto registro_id).1.countP
        isNonSuccessStatusUpdate = 0) := by
  rcases run_shape env id_projeto registro_id with
    ⟨h0, heq⟩ | ⟨h0, hs, heq⟩ | ⟨uuid, h0, hs, ha, heq⟩ |
    ⟨uuid, h0, hs, ha, hdl, heq⟩ | ⟨uuid, h0, hs, ha, hdl, hup, heq⟩ |
    ⟨uuid, h0, hs, ha, hdl, hup, hmt, hco, heq⟩ |
    ⟨uuid, h0, hs, ha, hdl, hup, hmt, hco, heq⟩ |
    ⟨uuid, h0, hs, ha, hdl, hup, hmt, hco, heq⟩ |
    ⟨uuid, h0, hs, ha, hdl, hup, hmt, hco, heq⟩
  · refine ⟨⟨[], none, some ("Erro: " ++ "Nenhuma imagem encontrada"), none,
      env.updNoImagesOk, "Nenhuma imagem encontrada", [],
      by rw [heq]; rfl, Or.inl ⟨_, rfl⟩⟩, by rw [heq]; rfl,
      fun _ => ⟨[], "Nenhuma imagem encontrada", env.updNoImagesOk,
        "Nenhuma imagem encontrada", [], by rw [heq]; rfl⟩,
      fun hcf => by simp [commitFailCond, h0] at hcf⟩
  · refine ⟨⟨[Event.submit id_projeto], none,
      some ("Erro: " ++ "Falha ao iniciar processamento"), none,
      env.updSubmitFailOk, "Falha ao iniciar processamento no WebODM",
      [Event.cleanup id_projeto],
      by rw [heq]; rfl, Or.inl ⟨_, rfl⟩⟩, by rw [heq]; rfl,
      fun _ => ⟨[Event.submit id_projeto], "Falha ao iniciar processamento",
        env.updSubmitFailOk, "Falha ao iniciar processamento no WebODM",
        [Event.cleanup id_projeto], by rw [heq]; rfl⟩,
      fun hcf => by simp [commitFailCond, hs] at hcf⟩
  · refine ⟨⟨[Event.submit id_projeto,
      Event.update (some uuid) none none env.updIdWlOk], none,
      some ("Erro: " ++ env.awaitRes.1), none, env.updProcFailOk,
      "Processamento falhou: " ++ env.awaitRes.1, [Event.cleanup id_projeto],
      by rw [heq]; rfl, Or.inl ⟨_, rfl⟩⟩, by rw [heq]; rfl,
      fun _ => ⟨[Event.submit id_projeto,
        Event.update (some uuid) none none env.updIdWlOk], env.awaitRes.1,
        env.updProcFailOk, "Processamento falhou: " ++ env.awaitRes.1,
        [Event.cleanup id_projeto], by rw [heq]; rfl⟩,
      fun hcf => by simp [commitFailCond, ha] at hcf⟩
  · refine ⟨⟨[Event.submit id_projeto,
      Event.update (some uuid) none none env.updIdWlOk], none,
      some ("Erro: " ++ "Falha ao baixar resultados"), none, env.updDlFailOk,
      "Falha ao baixar resultados", [Event.cleanup id_projeto],
      by rw [heq]; rfl, Or.inl ⟨_, rfl⟩⟩, by rw [heq]; rfl,
      fun _ => ⟨[Event.submit id_projeto,
        Event.update (some uuid) none none env.updIdWlOk],
        "Falha ao baixar resultados", env.updDlFailOk,
        "Falha ao baixar resultados", [Event.cleanup id_projeto],
        by rw [heq]; rfl⟩,
      fun hcf => by simp [commitFailCond, hdl] at hcf⟩
  · refine ⟨⟨[Event.submit id_projeto,
      Event.update (some uuid) none none env.updIdWlOk], none,
      some ("Erro: " ++ "Falha ao enviar ortomosaico"), none,
      env.updUploadFailOk, "Falha ao enviar ortomosaico para o bucket",
      [Event.cleanup id_projeto],
      by rw [heq]; rfl, Or.inl ⟨_, rfl⟩⟩, by rw [heq]; rfl,
      fun _ => ⟨[Event.submit id_projeto,
        Event.update (some uuid) none none env.updIdWlOk],
        "Falha ao enviar ortomosaico", env.updUploadFailOk,
        "Falha ao enviar ortomosaico para o bucket",
        [Event.cleanup id_projeto], by rw [heq]; rfl⟩,
      fun hcf => by simp [commitFailCond, hup] at hcf⟩
  · refine ⟨⟨[Event.submit id_projeto,
      Event.update (some uuid) none none env.updIdWlOk], none,
      some "Sucesso", some (env.uploadRes.getD ""), false,
      "Falha ao atualizar registro no banco de dados",
      [Event.cleanup id_projeto],
      by rw [heq]; rfl, Or.inr ⟨rfl, rfl⟩⟩, by rw [heq]; rfl,
      fun hcf => by simp [commitFailCond, hs, ha, hdl, hup, hco, h0] at hcf,
      fun _ => by rw [heq]; rfl⟩
  · refine ⟨⟨[Event.submit id_projeto,
      Event.update (some uuid) none none env.updIdWlOk,
      Event.sendMeta env.sendMetaOk], none,
      some "Sucesso", some (env.uploadRes.getD ""), false,
      "Falha ao atualizar registro no banco de dados",
      [Event.cleanup id_projeto],
      by rw [heq]; rfl, Or.inr ⟨rfl, rfl⟩⟩, by rw [heq]; rfl,
      fun hcf => by simp [commitFailCond, hs, ha, hdl, hup, hco, h0] at hcf,
      fun _ => by rw [heq]; rfl⟩
  · rw [heq] at h; simp at h
  · rw [heq] at h; simp at h

/-- Witness for the amended C3: on the zero-images abort the run delivers
exactly one error webhook. -/
theorem claim3_witness :
    (processar_projeto
      ⟨0, some "U", true, true, true, true, true, true, ("", false),
        none, none, none, true, true⟩ "p" "r").1.countP isErroWebhook = 1 :=
  (claim3_error_update_precedes_error_webhook
    ⟨0, some "U", true, true, true, true, true, true, ("", false),
      none, none, none, true, true⟩ "p" "r" (by decide)).2.1

/-! ## Claim C8 — ledger updates apply exactly the supplied fields -/

/-- Claim C8: `atualizar_registro_requisicao` applies exactly the fields
supplied with non-absent values to the targeted record; any field left as
`None` is excluded from the update payload and thus left untouched on the
record, and every other column of the record is untouched as well. -/
theorem claim8_update_applies_exactly_supplied_fields
    (f : UpdateFields) (r : Registro) :
    applyData r (updateData f) =
      { r with id_wl := pick f.id_wl r.id_wl,
               status_orto := pick f.status_orto r.status_orto,
               url_ortomosaico := pick f.url_ortomosaico r.url_ortomosaico } ∧
    (updateData f).map Prod.fst =
      (match f.id_wl with | some _ => ["id_wl"] | none => []) ++
      (match f.status_orto with | some _ => ["status_orto"] | none => []) ++
      (match f.url_ortomosaico with | some _ => ["url_ortomosaico"] | none => []) := by
  obtain ⟨fi, fs, fu⟩ := f
  cases fi <;> cases fs <;> cases fu <;> exact ⟨rfl, rfl⟩

/-! ## Claim C10 — update result ignores whether any record matched -/

/-- Claim C10: `atualizar_registro_requisicao` returns `True` whenever at
least one field is supplied and the store interaction raises no exception,
regardless of how many records matched the given id (the `matched` component
of the oracle never influences the result, so updating a nonexistent record
reports success); when every field is absent it returns `False` without
issuing any update request. -/
theorem claim10_update_result_ignores_matched
    (env : LedgerEnv) (id_registro : String) (f : UpdateFields) :
    (atualizar_registro_requisicao env id_registro f).1 =
      (!(updateData f).isEmpty && !env.clientRaises && !env.execRaises) ∧
    (updateData f = [] →
      atualizar_registro_requisicao env id_registro f = (false, none)) ∧
    ((updateData f).isEmpty = false → env.clientRaises = false →
      (atualizar_registro_requisicao env id_registro f).2 =
        some (id_registro, updateData f)) := by
  obtain ⟨cb, eb, m⟩ := env
  cases cb <;> cases eb <;> cases hd : (updateData f).isEmpty <;>
    simp_all [atualizar_registro_requisicao, List.isEmpty_iff]

/-- Witness for C10: with one field supplied, a store that raises nothing and
matches zero records (`matched = 0`, a nonexistent record id), the call
reports success. -/
theorem claim10_witness :
    (atualizar_registro_requisicao ⟨false, false, 0⟩ "registro-inexistente"
      ⟨none, some "Sucesso", none⟩).1 = true := by
  have h := (claim10_update_result_ignores_matched ⟨false, false, 0⟩
    "registro-inexistente" ⟨none, some "Sucesso", none⟩).1
  simpa using h

/-! ## Claim C9 — the submission bundle mutates the shared preset -/

set_option maxHeartbeats 4000000 in
/-- Claim C9: building the submission parameter bundle writes the derived job
name, the fixed projection, `gcp`, and the coerced resolution/dsm/dtm values
into the shared `config.ortomosaico_preset` mapping itself (no per-run copy is
made), so the mapping a second run starts from already contains every key the
first run set — keys the pristine `padrao` preset does not have. -/
theorem claim9_preset_mutation_shared_across_runs (id1 id2 : String) :
    dictGet ortomosaico_preset_padrao "name" = none ∧
    dictGet ortomosaico_preset_padrao "projection" = none ∧
    dictGet ortomosaico_preset_padrao "gcp" = none ∧
    dictGet ortomosaico_preset_padrao "orthophoto-resolution" = none ∧
    dictGet (processar_imagens_webodm_opcoes ortomosaico_preset_padrao id1)
      "name" = some (.pstr ("Projeto_" ++ id1)) ∧
    dictGet (processar_imagens_webodm_opcoes ortomosaico_preset_padrao id1)
      "projection" = some (.pstr "EPSG:4326") ∧
    dictGet (processar_imagens_webodm_opcoes ortomosaico_preset_padrao id1)
      "gcp" = some (.pbool false) ∧
    dictGet (processar_imagens_webodm_opcoes ortomosaico_preset_padrao id1)
      "orthophoto-resolution" = some (.pfloat ((5 : Int) : ℚ)) ∧
    dictGet (processar_imagens_webodm_opcoes ortomosaico_preset_padrao id1)
      "dsm" = some (.pbool false) ∧
    dictGet (processar_imagens_webodm_opcoes ortomosaico_preset_padrao id1)
      "dtm" = some (.pbool false) ∧
    dictGet (processar_imagens_webodm_opcoes
        (processar_imagens_webodm_opcoes ortomosaico_preset_padrao id1) id2)
      "name" = some (.pstr ("Projeto_" ++ id2)) ∧
    dictGet (processar_imagens_webodm_opcoes
        (processar_imagens_webodm_opcoes ortomosaico_preset_padrao id1) id2)
      "projection" = some (.pstr "EPSG:4326") := by
  exact ⟨rfl, rfl, rfl, rfl, rfl, rfl, rfl, rfl, rfl, rfl, rfl, rfl⟩

/-! ## Claim C7 — the mosaic upload is not the only store write -/

/-- Counterexample to C7 as stated: when the parent-folder probe raises,
`enviar_ortomosaico_para_bucket` performs a folder-creation store write (the
`.folder` placeholder upload) in addition to the mosaic upload, so the upload
of the mosaic file is not the only store write involved. -/
theorem claim7_counterexample :
    (enviar_ortomosaico_para_bucket ⟨true, false, true, true, "http://u"⟩
      "P" "orto.tif").2 =
      [("P/.folder", true), ("P/odm_ortophoto.tif", true)] ∧
    (enviar_ortomosaico_para_bucket ⟨true, false, true, true, "http://u"⟩
      "P" "orto.tif").1 = (some "http://u", true) := ⟨rfl, rfl⟩

/-- Claim C7 as amended: before uploading the mosaic the code probes the
parent folder and, exactly when the probe fails, first attempts to create the
folder by uploading a `.folder` placeholder; the mosaic upload to the fixed
per-project path then proceeds regardless, and the returned result depends
only on the mosaic upload — the folder step's own outcome never affects it. -/
theorem claim7_upload_writes (env : BucketEnv)
    (id_projeto caminho : String) (h : env.fileExists = true) :
    (env.folderCheckOk = true →
      (enviar_ortomosaico_para_bucket env id_projeto caminho).2 =
        [(id_projeto ++ "/odm_ortophoto.tif", env.uploadOk)]) ∧
    (env.folderCheckOk = false →
      (enviar_ortomosaico_para_bucket env id_projeto caminho).2 =
        [(id_projeto ++ "/.folder", env.folderUploadOk),
         (id_projeto ++ "/odm_ortophoto.tif", env.uploadOk)]) ∧
    ((enviar_ortomosaico_para_bucket env id_projeto caminho).1 =
      if env.uploadOk then (some env.publicUrl, true) else (none, false)) := by
  obtain ⟨fe, fc, fu, uo, url⟩ := env
  subst h
  cases fc <;> cases uo <;>
    simp [enviar_ortomosaico_para_bucket]

/-- Witness for the amended C7: with the probe succeeding and the mosaic
upload failing, the only store write is the failed mosaic upload. -/
theorem claim7_witness :
    (enviar_ortomosaico_para_bucket ⟨true, true, true, false, "u"⟩ "P" "f").2 =
      [("P/odm_ortophoto.tif", false)] :=
  (claim7_upload_writes ⟨true, true, true, false, "u"⟩ "P" "f" rfl).1 rfl

/-! ## Claim C4 — zero matching images aborts before submission -/

/-- Claim C4: when the storage listing yields no object with a supported image
extension, the download count is zero and the run aborts with the explicit
"no images" error status and a single failure webhook, never invoking the
remote job submission. -/
theorem claim4_no_input_aborts_without_submit
    (id_projeto registro_id : String) (listing : List StorageFile)
    (downloadOk : String → Bool) (env : RunEnv)
    (h : listing.filter (fun f => fileExtSupported f.name) = []) :
    (baixar_imagens_projeto id_projeto listing downloadOk).2 = 0 ∧
    processar_projeto
      { env with
        numImagens := (baixar_imagens_projeto id_projeto listing downloadOk).2 }
      id_projeto registro_id =
      ([Event.update none (some "Erro: Nenhuma imagem encontrada") none env.updNoImagesOk,
        Event.webhook "erro" none (some "Nenhuma imagem encontrada")], false) ∧
    ∀ e ∈ (processar_projeto
      { env with
        numImagens := (baixar_imagens_projeto id_projeto listing downloadOk).2 }
      id_projeto registro_id).1, isSubmit e = false := by
  have h0 : (baixar_imagens_projeto id_projeto listing downloadOk).2 = 0 := by
    cases listing with
    | nil => rfl
    | cons a l => simp [baixar_imagens_projeto, h]
  have htr : processar_projeto
      { env with
        numImagens := (baixar_imagens_projeto id_projeto listing downloadOk).2 }
      id_projeto registro_id =
      ([Event.update none (some "Erro: Nenhuma imagem encontrada") none env.updNoImagesOk,
        Event.webhook "erro" none (some "Nenhuma imagem encontrada")], false) := by
    simp [processar_projeto, h0]
  refine ⟨h0, htr, ?_⟩
  intro e he
  rw [htr] at he
  simp only [List.mem_cons, List.mem_singleton, List.not_mem_nil, or_false] at he
  rcases he with rfl | rfl <;> rfl

/-- Witness for C4: a listing holding a single `.txt` object has no matching
image, so the run aborts with the "no images" error and returns failure. -/
theorem claim4_witness :
    (baixar_imagens_projeto "p" [⟨"notas.txt"⟩] (fun _ => true)).2 = 0 ∧
    (processar_projeto
      { (⟨7, some "u", true, true, true, true, true, true, ("", false),
          none, none, none, true, true⟩ : RunEnv) with
        numImagens :=
          (baixar_imagens_projeto "p" [⟨"notas.txt"⟩] (fun _ => true)).2 }
      "p" "r").2 = false := by
  have h := claim4_no_input_aborts_without_submit "p" "r" [⟨"notas.txt"⟩]
    (fun _ => true)
    ⟨7, some "u", true, true, true, true, true, true, ("", false),
      none, none, none, true, true⟩ (by decide)
  exact ⟨h.1, by rw [h.2.1]⟩

/-! ## Claim C5 — the completion wait polls at a fixed interval within a
fixed budget -/

lemma firstTerminalAux_eq_none (st : Nat → TaskStatus) :
    ∀ fuel k, (∀ j, j < fuel → (st (k + j)).isTerminal = false) →
      firstTerminalAux st fuel k = none := by
  intro fuel
  induction fuel with
  | zero => intro k _; rfl
  | succ n ih =>
    intro k h
    have h0 : (st k).isTerminal = false := by
      have := h 0 (Nat.succ_pos n)
      simpa using this
    have hrec : firstTerminalAux st n (k + 1) = none := by
      refine ih (k + 1) (fun j hj => ?_)
      have h' := h (j + 1) (by omega)
      have e : k + (j + 1) = k + 1 + j := by omega
      rw [e] at h'
      exact h'
    simp [firstTerminalAux, h0, hrec]

lemma firstTerminalAux_eq_some (st : Nat → TaskStatus) :
    ∀ fuel k j s, firstTerminalAux st fuel k = some (j, s) →
      j < k + fuel ∧ st j = s ∧ s.isTerminal = true := by
  intro fuel
  induction fuel with
  | zero => intro k j s hcontra; simp [firstTerminalAux] at hcontra
  | succ n ih =>
    intro k j s hsome
    by_cases ht : (st k).isTerminal = true
    · rw [firstTerminalAux, if_pos ht] at hsome
      obtain ⟨h1, h2⟩ : k = j ∧ st k = s := by
        simpa using hsome
      subst h1
      exact ⟨by omega, h2, h2 ▸ ht⟩
    · have hb : (st k).isTerminal = false := by simpa using ht
      rw [firstTerminalAux, if_neg (by simp [hb])] at hsome
      obtain ⟨h1, h2, h3⟩ := ih (k + 1) j s hsome
      exact ⟨by omega, h2, h3⟩

lemma name_beq_completed (s : TaskStatus) :
    (s.name == "COMPLETED") = (s == TaskStatus.COMPLETED) := by
  cases s <;> rfl

/-- Claim C5: the completion wait checks the job status at the fixed 30-second
interval, performing at most `max_polls = 64800 / 30` checks so that the
checks stay within the 18-hour budget; when no terminal status is ever
observed it gives up with the timeout outcome `("FAILED", false)` after
exactly the budgeted number of checks, polling no further; when the first
terminal status is observed at check `k` it stops there and reports that
status, succeeding exactly for `"COMPLETED"`; and whenever the wait reports
failure, the run aborts as processing-failed, the ledger status and the
failure webhook both carrying the reported status string. -/
theorem claim5_await_bounded_and_failure_aborts
    (statuses : Nat → TaskStatus) (env : RunEnv)
    (id_projeto registro_id uuid : String) :
    (pollCount statuses ≤ max_polls ∧
     polling_interval * pollCount statuses ≤ max_timeout) ∧
    ((∀ k, k < max_polls → (statuses k).isTerminal = false) →
      aguardar_processamento statuses = ("FAILED", false) ∧
      pollCount statuses = max_polls) ∧
    (∀ k s, firstTerminal statuses = some (k, s) →
      aguardar_processamento statuses = (s.name, s == TaskStatus.COMPLETED) ∧
      pollCount statuses = k + 1 ∧ statuses k = s ∧ s.isTerminal = true) ∧
    ((aguardar_processamento statuses).2 = false → env.numImagens ≠ 0 →
      env.submitRes = some uuid →
      processar_projeto { env with awaitRes := aguardar_processamento statuses }
        id_projeto registro_id =
      ([Event.submit id_projeto,
        Event.update (some uuid) none none env.updIdWlOk,
        Event.update none
          (some ("Erro: " ++ (aguardar_processamento statuses).1))
          none env.updProcFailOk,
        Event.webhook "erro" none
          (some ("Processamento falhou: " ++ (aguardar_processamento statuses).1)),
        Event.cleanup id_projeto], false)) := by
  have hmp : max_polls = 2160 := rfl
  refine ⟨?_, ?_, ?_, ?_⟩
  · have hle : pollCount statuses ≤ max_polls := by
      unfold pollCount
      cases hft : firstTerminal statuses with
      | none => exact Nat.le_refl _
      | some ks =>
        obtain ⟨k, s⟩ := ks
        have hb := firstTerminalAux_eq_some statuses max_polls 0 k s hft
        show k + 1 ≤ max_polls
        omega
    refine ⟨hle, ?_⟩
    have : polling_interval * pollCount statuses ≤ polling_interval * max_polls :=
      Nat.mul_le_mul_left _ hle
    calc polling_interval * pollCount statuses
        ≤ polling_interval * max_polls := this
      _ = max_timeout := by rfl
  · intro hall
    have hft : firstTerminal statuses = none := by
      refine firstTerminalAux_eq_none statuses max_polls 0 (fun j hj => ?_)
      simpa using hall j hj
    constructor
    · unfold aguardar_processamento
      rw [hft]
    · unfold pollCount
      rw [hft]
  · intro k s hft
    obtain ⟨h1, h2, h3⟩ := firstTerminalAux_eq_some statuses max_polls 0 k s hft
    refine ⟨?_, ?_, h2, h3⟩
    · unfold aguardar_processamento
      rw [hft]
      show (s.name, s.name == "COMPLETED") = (s.name, s == TaskStatus.COMPLETED)
      rw [name_beq_completed]
    · unfold pollCount
      rw [hft]
  · intro hfail hn hsub
    obtain ⟨n, sub, u1, u2, u3, u4, u5, u6, aw, dl, mt, up, sm, co⟩ := env
    cases n with
    | zero => exact absurd rfl hn
    | succ m =>
      simp only at hsub
      subst hsub
      simp [processar_projeto, hfail]

/-- Witness for C5: a job that never leaves `RUNNING` makes the wait report
the timeout outcome after the full poll budget. -/
theorem claim5_witness :
    aguardar_processamento (fun _ => TaskStatus.RUNNING) = ("FAILED", false) ∧
    pollCount (fun _ => TaskStatus.RUNNING) = max_polls :=
  (claim5_await_bounded_and_failure_aborts (fun _ => TaskStatus.RUNNING)
    ⟨1, some "u", true, true, true, true, true, true, ("", false),
      none, none, none, true, true⟩ "p" "r" "u").2.1 (fun _ _ => rfl)

end OrtoPipeline
